import Mathlib

/-
Shallow embedding of the rest-api-proxy repository (src/config.py and src/main.py).

Conventions used throughout this development:
- Python dicts become association lists, in insertion order.
- A Python function that can raise becomes a function into Except PyExc; a
  function that both mutates the shared request-counter dictionary and can
  raise returns a pair of the Except result and the counter map that is
  observable after the call (on an exception, the map as it was when the
  exception was raised, since the exception aborts the rest of the body).
- Python floats are modelled as rationals; the only float values appearing in
  any statement below are 0 and 1, which floats represent exactly, and the
  comparisons used are exact at those values.
- String.toUpper models str.upper, which agrees on the ASCII method names used
  everywhere in this development.
-/

namespace RestApiProxy

/-- A raised Python exception, as observable by a caller. The attributeError
constructor records the type on which the missing attribute was read and the
attribute name; exc covers every other exception by its message. -/
inductive PyExc
| attributeError (objType attr : String)
| exc (msg : String)

/-- The message text of an exception, as interpolated by the logging calls in
main.py. -/
def PyExc.message : PyExc → String
| PyExc.attributeError t a => ("AttributeError: ") ++ t ++ (" object has no attribute ") ++ a
| PyExc.exc m => m

/-- A YAML/JSON value, for the Dict[str, Any] bodies of config.py. -/
inductive JsonVal
| null
| bool (b : Bool)
| num (q : Rat)
| str (s : String)
| arr (xs : List JsonVal)
| obj (fields : List (String × JsonVal))

/-- config.py lines 8-13. FailureCondition declares exactly these five
optional fields; in particular it declares NO field named enabled, which
main.py line 41 nevertheless reads. -/
structure FailureCondition where
  method : Option String
  count : Option Int
  every : Option Int
  probability : Option Rat
  delay : Option Int

/-- config.py lines 16-19. -/
structure FailureResponse where
  status_code : Int
  body : Option (List (String × JsonVal))
  headers : Option (List (String × String))

/-- config.py lines 22-24. -/
structure FailureRule where
  condition : FailureCondition
  response : FailureResponse

/-- config.py lines 27-31 (debug defaults to False and failure_rules to []
in the pydantic schema; concrete values below always spell every field). -/
structure Endpoint where
  path : String
  methods : List String
  debug : Bool
  failure_rules : List FailureRule

/-- config.py lines 34-37. -/
structure Target where
  url : String
  headers : Option (List (String × String))
  endpoints : List Endpoint

/-- config.py lines 40-43. -/
structure ServerConfig where
  host : String
  port : Int
  debug : Bool

/-- config.py lines 46-48. -/
structure LoggingConfig where
  level : String
  format : String

/-- config.py lines 51-54. The routing field is the mapping named targets
(Dict[str, Target]); no field named target exists on this type. -/
structure ProxyConfig where
  server : ServerConfig
  logging : LoggingConfig
  targets : List (String × Target)

/-- The Python attribute access self.config.target performed at main.py lines
122 and 149: ProxyConfig (config.py lines 51-54) declares only targets, so
pydantic raises AttributeError for the undeclared name target. -/
def ProxyConfig.targetAttr (_cfg : ProxyConfig) : Except PyExc Target :=
  Except.error (PyExc.attributeError ("ProxyConfig") ("target"))

/-- The Python attribute access condition.enabled performed at main.py line
41: FailureCondition (config.py lines 8-13) declares no field named enabled,
so pydantic raises AttributeError. -/
def FailureCondition.enabledAttr (_c : FailureCondition) : Except PyExc Bool :=
  Except.error (PyExc.attributeError ("FailureCondition") ("enabled"))

/-- The shared failure counter self.request_counts, a defaultdict(int): a
total map from keys to counts, every absent key reading as 0. -/
def CounterMap : Type := String → Nat

/-- A fresh FailureInjector state (main.py line 35). -/
def emptyCounts : CounterMap := fun _ => 0

/-- The in-place increment self.request_counts[key] += 1 of main.py line 48. -/
def bump (c : CounterMap) (key : String) : CounterMap :=
  fun k => if k = key then c key + 1 else c k

/-- Python modulo: a % b = a - b * (a // b) with floor division. Agrees with
Int.emod for positive b and is exact for every b. -/
def pymod (a b : Int) : Int := a - b * (Int.fdiv a b)

/-- main.py lines 44-45: the rule vetoes when condition.method is truthy (set
and nonempty) and differs case-insensitively from the request method. -/
def vetoMethod (m : Option String) (method : String) : Bool :=
  match m with
  | none => false
  | some s => if s = "" then false else decide (s.toUpper ≠ method.toUpper)

/-- main.py lines 50-52: when condition.count is truthy (set and nonzero),
veto unless the counter value equals count. -/
def vetoCount (c : Option Int) (cur : Nat) : Bool :=
  match c with
  | none => false
  | some n => if n = 0 then false else decide ((cur : Int) ≠ n)

/-- main.py lines 54-56: when condition.every is truthy (set and nonzero),
veto unless the counter value is divisible by every (Python modulo). -/
def vetoEvery (e : Option Int) (cur : Nat) : Bool :=
  match e with
  | none => false
  | some n => if n = 0 then false else decide (pymod (cur : Int) n ≠ 0)

/-- main.py lines 58-60: when condition.probability is truthy (set and
nonzero), veto when the drawn random value exceeds it. -/
def vetoProb (p : Option Rat) (rand : Rat) : Bool :=
  match p with
  | none => false
  | some q => if q = 0 then false else decide (q < rand)

/-- FailureInjector.should_inject_failure, main.py lines 37-65, over the
counter state. The rand argument is the value the call random.random() at
line 59 would return (a single draw suffices: at most one draw per call).
The time.sleep at lines 62-63 has no effect on the returned decision or on
the counter and is not modelled. Line 41 reads condition.enabled, an
attribute FailureCondition does not declare, so the call raises before the
method check at line 44 and before the increment at line 48; the remaining
lines are transcribed faithfully below it. -/
def should_inject_failure (counts : CounterMap) (rule : FailureRule)
    (method path : String) (rand : Rat) : Except PyExc Bool × CounterMap :=
  match rule.condition.enabledAttr with
  | Except.error e => (Except.error e, counts)
  | Except.ok enabled =>
    if enabled = false then (Except.ok false, counts)
    else if vetoMethod rule.condition.method method then (Except.ok false, counts)
    else
      let key := method ++ (":") ++ path
      let counts1 := bump counts key
      if vetoCount rule.condition.count (counts1 key) then (Except.ok false, counts1)
      else if vetoEvery rule.condition.every (counts1 key) then (Except.ok false, counts1)
      else if vetoProb rule.condition.probability rand then (Except.ok false, counts1)
      else (Except.ok true, counts1)

/-- A token of the regular expression that main.py line 134 builds by
pattern.replace and that re.match interprets: each star of the pattern
becomes the two-character regex star (match any character sequence), a dot
is the regex any-single-character metacharacter, and every other character
of the patterns in scope here stands for itself. -/
inductive Tok
| lit (c : Char)
| any
| star

/-- Translation of one pattern character into the token the built regex
holds for it. -/
def tokChar (c : Char) : Tok :=
  if c = '*' then Tok.star else if c = '.' then Tok.any else Tok.lit c

/-- The token list of the regex built from a pattern at main.py line 134. -/
def tokenize (p : List Char) : List Tok := p.map tokChar

/-- All suffixes of a list, longest first (the list itself down to []). -/
def tailsOf : List Char → List (List Char)
| [] => [[]]
| x :: s => (x :: s) :: tailsOf s

/-- Anchored matching of a token list against a character list, as re.match
with a trailing end anchor performs it: the whole input must be consumed.
A star matches when some suffix of the input matches the remaining tokens. -/
def reMatch : List Tok → List Char → Bool
| [], s => s.isEmpty
| Tok.star :: ts, s => (tailsOf s).any (fun t => reMatch ts t)
| Tok.any :: ts, s =>
    match s with
    | [] => false
    | _ :: s2 => reMatch ts s2
| Tok.lit c :: ts, s =>
    match s with
    | [] => false
    | x :: s2 => c == x && reMatch ts s2

/-- ProxyServer._path_matches, main.py lines 129-137. The embedding is exact
for the first and last branches (plain string comparisons in the source) and
models the regex branch through tokenize and reMatch; that model is faithful
to re.match for every pattern whose characters include no regex metacharacter
other than the dot and the star, applied to paths without a newline, which
covers every pattern and path any statement below touches. -/
def pathMatches (pattern path : String) : Bool :=
  if pattern = ("/*") then true
  else if pattern.data.contains '*' then reMatch (tokenize pattern.data) path.data
  else pattern == path

/-- ProxyServer._method_matches, main.py lines 139-142. -/
def methodMatches (allowed : List String) (method : String) : Bool :=
  allowed.contains ("*") || (allowed.map String.toUpper).contains method.toUpper

/-- The loop body of ProxyServer._find_matching_endpoint, main.py lines
122-127: first declared endpoint whose pattern and methods both match. -/
def firstMatchingEndpoint : List Endpoint → String → String → Option Endpoint
| [], _, _ => none
| e :: rest, path, method =>
    if pathMatches e.path path && methodMatches e.methods method then some e
    else firstMatchingEndpoint rest path method

/-- ProxyServer._find_matching_endpoint, main.py lines 120-127: reads
self.config.target (line 122) and, were that read to succeed, would return
the first matching endpoint of its endpoints list. -/
def findMatchingEndpoint (cfg : ProxyConfig) (path method : String) :
    Except PyExc (Option Endpoint) :=
  match cfg.targetAttr with
  | Except.error e => Except.error e
  | Except.ok t => Except.ok (firstMatchingEndpoint t.endpoints path method)

/-- The failure-rule loop of ProxyServer._handle_request, main.py lines
184-194: rules are evaluated in declared order and the first rule for which
should_inject_failure returns True is returned; later rules are not
evaluated. The counter state is threaded through the calls. -/
def evalRules (counts : CounterMap) (rules : List FailureRule)
    (method path : String) (rand : Rat) :
    Except PyExc (Option FailureRule) × CounterMap :=
  match rules with
  | [] => (Except.ok none, counts)
  | r :: rest =>
    match should_inject_failure counts r method path rand with
    | (Except.error e, counts2) => (Except.error e, counts2)
    | (Except.ok true, counts2) => (Except.ok (some r), counts2)
    | (Except.ok false, counts2) => evalRules counts2 rest method path rand

/-- target.url.rstrip of main.py line 204: drop every trailing slash. -/
def rstripSlashes (s : String) : String := s.dropRightWhile (fun c => c == '/')

/-- The routing outcome of one request, as far as the pipeline decides before
any backend traffic: an HTTPException raised on purpose, an injected
JSONResponse (status, body defaulted to the empty object, headers defaulted
to empty, main.py lines 190-194), or the issuing of the outbound backend call
of line 222 to the given URL. -/
inductive Outcome
| httpError (status : Int) (detail : String)
| injected (status : Int) (body : List (String × JsonVal)) (headers : List (String × String))
| forwardToBackend (url : String)

/-- ProxyServer._handle_request, main.py lines 144-222, modelled up to the
decision that either raises, injects, or issues the backend call. Line 145
prefixes the routed path with a slash; line 148 resolves the endpoint (which
reads self.config.target at line 122); line 149 reads self.config.target
again; line 151 raises HTTPException 404 when no endpoint matched; lines
184-194 run the failure rules and return the injected JSONResponse of the
first firing rule; otherwise the backend call to the concatenated URL of
line 204 is issued. The body read and the debug logging of lines 155-182 and
196-219 affect no part of this decision and are not modelled. -/
def handleRequest (cfg : ProxyConfig) (counts : CounterMap)
    (method fullPath : String) (rand : Rat) : Except PyExc Outcome × CounterMap :=
  let path := ("/") ++ fullPath
  match findMatchingEndpoint cfg path method with
  | Except.error e => (Except.error e, counts)
  | Except.ok endpointOpt =>
    match cfg.targetAttr with
    | Except.error e => (Except.error e, counts)
    | Except.ok target =>
      match endpointOpt with
      | none => (Except.ok (Outcome.httpError 404 ("No matching endpoint found")), counts)
      | some endpoint =>
        match evalRules counts endpoint.failure_rules method path rand with
        | (Except.error e, counts2) => (Except.error e, counts2)
        | (Except.ok (some rule), counts2) =>
            (Except.ok (Outcome.injected rule.response.status_code
              (rule.response.body.getD []) (rule.response.headers.getD [])), counts2)
        | (Except.ok none, counts2) =>
            (Except.ok (Outcome.forwardToBackend (rstripSlashes target.url ++ path)), counts2)

/-- The numeric logging levels of the Python logging module, as read by
getattr(logging, name) at main.py line 107 for the level names; any other
name either fails the getattr or makes the subsequent setLevel raise, and
both cases land in the same except branch of reload_config, so they are
modelled as one error. -/
def loggingLevelAttr (name : String) : Except PyExc Nat :=
  if name = ("CRITICAL") then Except.ok 50
  else if name = ("FATAL") then Except.ok 50
  else if name = ("ERROR") then Except.ok 40
  else if name = ("WARNING") then Except.ok 30
  else if name = ("WARN") then Except.ok 30
  else if name = ("INFO") then Except.ok 20
  else if name = ("DEBUG") then Except.ok 10
  else if name = ("NOTSET") then Except.ok 0
  else Except.error (PyExc.attributeError ("module logging") name)

/-- One record emitted through self.logger. -/
inductive LogEntry
| info (msg : String)
| error (msg : String)

/-- The logger: its active level and the records emitted so far. -/
structure LoggerState where
  level : Nat
  log : List LogEntry

/-- The server state that reload_config touches: the active configuration
read by every request, and the logger. -/
structure ServerState where
  config : ProxyConfig
  logger : LoggerState

/-- ProxyServer.reload_config, main.py lines 99-110. The outcome of
load_config(self.config_path) (an external collaborator: file IO, YAML
parsing and pydantic validation) enters as the loadResult argument. The try
block assigns self.config (line 103), logs success (line 104) and updates
the logger level (line 107); every exception, whether from load_config or
from the level update, is caught by the except branch and logged (line 110),
so the call itself never raises: it is a total function on states. -/
def reload_config (st : ServerState) (loadResult : Except PyExc ProxyConfig) : ServerState :=
  match loadResult with
  | Except.error e =>
      { st with logger := { st.logger with
          log := st.logger.log ++ [LogEntry.error (("Failed to reload configuration: ") ++ e.message)] } }
  | Except.ok newConfig =>
      let st1 : ServerState :=
        { config := newConfig,
          logger := { st.logger with
            log := st.logger.log ++ [LogEntry.info ("Configuration reloaded successfully")] } }
      match loggingLevelAttr newConfig.logging.level with
      | Except.ok lvl => { st1 with logger := { st1.logger with level := lvl } }
      | Except.error e =>
          { st1 with logger := { st1.logger with
              log := st1.logger.log ++ [LogEntry.error (("Failed to reload configuration: ") ++ e.message)] } }

/-- The regex metacharacters of Python re other than the star (the star is
handled by the replace at main.py line 134). A pattern avoiding all of these
is matched by the built regex exactly as literal text with star wildcards. -/
def regexMeta : List Char :=
  ['.', '\\', '+', '?', '^', '$', '[', ']', '(', ')', '\x7b', '\x7d', '|']

/-- A pattern every character of which is either the star or a character
with no regex metacharacter meaning. -/
def noMeta (p : List Char) : Bool := p.all (fun c => !(regexMeta.contains c))

/-- The specification reading of wildcard matching, written from the words of
the spec for comparison with the code: a path matches a pattern exactly when
it is obtained from the pattern by replacing each star with an arbitrary
character sequence, every other pattern character standing for itself, the
whole path anchored at both ends. -/
inductive SubstMatch : List Char → List Char → Prop
| nil : SubstMatch [] []
| cons {c : Char} {p s : List Char} (hc : c ≠ '*') (h : SubstMatch p s) :
    SubstMatch (c :: p) (c :: s)
| star {p : List Char} (s1 : List Char) {s2 : List Char} (h : SubstMatch p s2) :
    SubstMatch ('*' :: p) (s1 ++ s2)

/-- Boolean companion of SubstMatch, structurally recursive on the pattern. -/
def substMatchB : List Char → List Char → Bool
| [], s => s.isEmpty
| c :: p, s =>
    if c = '*' then (tailsOf s).any (fun t => substMatchB p t)
    else
      match s with
      | [] => false
      | x :: s2 => c == x && substMatchB p s2

/-- A condition setting only count, to 3 (the scenario of claim C1). -/
def condC1 : FailureCondition :=
  { method := none, count := some 3, every := none, probability := none, delay := none }

/-- A minimal failure response. -/
def responseC1 : FailureResponse := { status_code := 500, body := none, headers := none }

/-- A rule whose condition sets count to 3. -/
def ruleC1 : FailureRule := { condition := condC1, response := responseC1 }

/-- A condition whose only constraint is the method, set to GET (so the
method constraint of claim C2 is satisfied by a GET request). -/
def condC2 : FailureCondition :=
  { method := some ("GET"), count := none, every := none, probability := none, delay := none }

/-- A rule used for claim C2. -/
def ruleC2 : FailureRule := { condition := condC2, response := responseC1 }

/-- A condition setting only probability, to 0 (the scenario of claim C3). -/
def condC3 : FailureCondition :=
  { method := none, count := none, every := none, probability := some 0, delay := none }

/-- A rule whose condition sets probability to 0. -/
def ruleC3 : FailureRule := { condition := condC3, response := responseC1 }

/-- An endpoint matching GET /x with no failure rules. -/
def endpointC4 : Endpoint :=
  { path := ("/x"), methods := [("GET")], debug := false, failure_rules := [] }

/-- A target whose endpoints list holds endpointC4. -/
def targetC4 : Target :=
  { url := ("http://backend.example"), headers := none, endpoints := [endpointC4] }

/-- A full configuration declaring one named target, for claim C4. -/
def cfgC4 : ProxyConfig :=
  { server := { host := ("0.0.0.0"), port := 8000, debug := false },
    logging := { level := ("INFO"), format := ("fmt") },
    targets := [(("default"), targetC4)] }

/-- A condition setting only count, to 1: its rule fires on the first
matching evaluation under the documented semantics. -/
def condC6 : FailureCondition :=
  { method := none, count := some 1, every := none, probability := none, delay := none }

/-- The injected response of the claim C6 scenario. -/
def responseC6 : FailureResponse :=
  { status_code := 500, body := some [(("error"), JsonVal.str ("boom"))], headers := none }

/-- A rule that fires on the first evaluation under the documented
semantics. -/
def ruleC6 : FailureRule := { condition := condC6, response := responseC6 }

/-- An endpoint whose first rule fires immediately (claim C6 scenario). -/
def endpointC6 : Endpoint :=
  { path := ("/fail"), methods := [("*")], debug := false, failure_rules := [ruleC6] }

/-- The target of the claim C6 scenario. -/
def targetC6 : Target :=
  { url := ("http://backend.example"), headers := none, endpoints := [endpointC6] }

/-- The configuration of the claim C6 scenario. -/
def cfgC6 : ProxyConfig :=
  { server := { host := ("0.0.0.0"), port := 8000, debug := false },
    logging := { level := ("INFO"), format := ("fmt") },
    targets := [(("default"), targetC6)] }

/-- An endpoint for GET /echo only (claim C7 scenario: the request path
/nope matches nothing). -/
def endpointC7 : Endpoint :=
  { path := ("/echo"), methods := [("GET")], debug := false, failure_rules := [] }

/-- The target of the claim C7 scenario. -/
def targetC7 : Target :=
  { url := ("http://backend.example"), headers := none, endpoints := [endpointC7] }

/-- The configuration of the claim C7 scenario. -/
def cfgC7 : ProxyConfig :=
  { server := { host := ("0.0.0.0"), port := 8000, debug := false },
    logging := { level := ("INFO"), format := ("fmt") },
    targets := [(("default"), targetC7)] }

/- ------------------------------------------------------------------ -/
/- Helper lemmas on the wildcard matching development.                 -/
/- ------------------------------------------------------------------ -/

/-- Existential reading of an any-pass over the suffixes of a list: some
split of the list has a matching right part. -/
theorem tailsOf_any_eq (f : List Char → Bool) (s : List Char) :
    (tailsOf s).any f = true ↔ ∃ s1 s2, s1 ++ s2 = s ∧ f s2 = true := by
  induction s with
  | nil =>
    constructor
    · intro h
      have h2 : f [] = true := by simpa [tailsOf] using h
      exact ⟨[], [], rfl, h2⟩
    · rintro ⟨s1, s2, hs, hf⟩
      have h1 := List.append_eq_nil.mp hs
      rw [h1.2] at hf
      simpa [tailsOf] using hf
  | cons x s ih =>
    simp only [tailsOf, List.any_cons, Bool.or_eq_true, ih]
    constructor
    · intro h
      cases h with
      | inl h => exact ⟨[], x :: s, rfl, h⟩
      | inr h =>
        obtain ⟨s1, s2, hs, hf⟩ := h
        exact ⟨x :: s1, s2, by rw [List.cons_append, hs], hf⟩
    · rintro ⟨s1, s2, hs, hf⟩
      cases s1 with
      | nil =>
        left
        simpa [← hs] using hf
      | cons y t =>
        right
        rw [List.cons_append] at hs
        injection hs with hy ht
        exact ⟨t, s2, ht, hf⟩

/-- Inversion for SubstMatch on a nonempty pattern. -/
theorem SubstMatch_cons_inv {c : Char} {p s : List Char} (h : SubstMatch (c :: p) s) :
    (c ≠ '*' ∧ ∃ s2, s = c :: s2 ∧ SubstMatch p s2) ∨
    (c = '*' ∧ ∃ s1 s2, s = s1 ++ s2 ∧ SubstMatch p s2) := by
  cases h with
  | cons hne h2 => exact Or.inl ⟨hne, _, rfl, h2⟩
  | star s1 h2 => exact Or.inr ⟨rfl, s1, _, rfl, h2⟩

/-- The boolean wildcard matcher decides the substitution relation
SubstMatch, for every pattern. -/
theorem substMatchB_iff : ∀ p s, substMatchB p s = true ↔ SubstMatch p s := by
  intro p
  induction p with
  | nil =>
    intro s
    cases s with
    | nil =>
      exact ⟨fun _ => SubstMatch.nil, fun _ => rfl⟩
    | cons x s2 =>
      constructor
      · intro h
        simp [substMatchB] at h
      · intro h
        cases h
  | cons c p ih =>
    intro s
    by_cases hc : c = '*'
    · subst hc
      rw [show substMatchB ('*' :: p) s = (tailsOf s).any (fun t => substMatchB p t) from by
        simp [substMatchB]]
      rw [tailsOf_any_eq]
      constructor
      · rintro ⟨s1, s2, hs, hf⟩
        rw [← hs]
        exact SubstMatch.star s1 ((ih s2).mp hf)
      · intro h
        rcases SubstMatch_cons_inv h with ⟨hne, _, _, _⟩ | ⟨_, s1, s2, hs, h2⟩
        · exact absurd rfl hne
        · exact ⟨s1, s2, hs.symm, (ih s2).mpr h2⟩
    · cases s with
      | nil =>
        constructor
        · intro h
          rw [show substMatchB (c :: p) [] = false from by simp [substMatchB, hc]] at h
          exact absurd h (by simp)
        · intro h
          rcases SubstMatch_cons_inv h with ⟨_, s2, heq, _⟩ | ⟨heq, _⟩
          · exact absurd heq (by simp)
          · exact absurd heq hc
      | cons x s2 =>
        rw [show substMatchB (c :: p) (x :: s2) = (c == x && substMatchB p s2) from by
          simp [substMatchB, hc]]
        rw [Bool.and_eq_true, beq_iff_eq]
        constructor
        · rintro ⟨rfl, h2⟩
          exact SubstMatch.cons hc ((ih s2).mp h2)
        · intro h
          rcases SubstMatch_cons_inv h with ⟨_, s3, heq, h2⟩ | ⟨heq, _⟩
          · injection heq with h1 hrest
            refine ⟨h1.symm, (ih s2).mpr ?_⟩
            rw [hrest]
            exact h2
          · exact absurd heq hc

/-- On patterns free of regex metacharacters other than the star, the regex
built at main.py line 134 matches exactly as literal-text-with-wildcards
matching does. -/
theorem reMatch_tokenize :
    ∀ p : List Char, noMeta p = true → ∀ s, reMatch (tokenize p) s = substMatchB p s := by
  intro p
  induction p with
  | nil =>
    intro _ s
    rfl
  | cons c p ih =>
    intro hp s
    rw [noMeta, List.all_cons, Bool.and_eq_true] at hp
    obtain ⟨hcsafe, hrest⟩ := hp
    have hrest2 : noMeta p = true := hrest
    by_cases hstar : c = '*'
    · subst hstar
      have htok : tokenize ('*' :: p) = Tok.star :: tokenize p := by
        simp [tokenize, tokChar]
      rw [htok]
      have hfun : (fun t => reMatch (tokenize p) t) = (fun t => substMatchB p t) :=
        funext (fun t => ih hrest2 t)
      rw [show reMatch (Tok.star :: tokenize p) s
            = (tailsOf s).any (fun t => reMatch (tokenize p) t) from rfl]
      rw [hfun]
      simp [substMatchB]
    · have hdot : c ≠ '.' := by
        intro h
        rw [h] at hcsafe
        exact absurd hcsafe (by decide)
      have htok : tokenize (c :: p) = Tok.lit c :: tokenize p := by
        simp [tokenize, tokChar, hstar, hdot]
      rw [htok]
      cases s with
      | nil => simp [reMatch, substMatchB, hstar]
      | cons x s2 =>
        rw [show reMatch (Tok.lit c :: tokenize p) (x :: s2)
              = (c == x && reMatch (tokenize p) s2) from rfl]
        rw [show substMatchB (c :: p) (x :: s2) = (c == x && substMatchB p s2) from by
          simp [substMatchB, hstar]]
        rw [ih hrest2 s2]

/- ------------------------------------------------------------------ -/
/- Claim theorems.                                                     -/
/- ------------------------------------------------------------------ -/

/-- Claim C1 (code_bug evidence): the claimed count=3 semantics never gets a
chance to apply, because every invocation of should_inject_failure raises
AttributeError at main.py line 41 reading the undeclared condition.enabled,
before the count check of lines 50-52 is reached; even the first invocation
of a count=3 rule returns neither true nor false, and the counter stays
untouched. -/
theorem C1_count_rule_never_returns :
    should_inject_failure emptyCounts ruleC1 ("GET") ("/orders") 0 =
      (Except.error (PyExc.attributeError ("FailureCondition") ("enabled")), emptyCounts) := rfl

/-- Claim C2 (code_bug evidence): an invocation whose method constraint is
satisfied (condition method GET, request GET) does not increment the shared
counter once as claimed; it raises AttributeError at main.py line 41 before
the increment at line 48, and the counter for the key stays 0. -/
theorem C2_counter_never_incremented :
    should_inject_failure emptyCounts ruleC2 ("GET") ("/orders") 0 =
      (Except.error (PyExc.attributeError ("FailureCondition") ("enabled")), emptyCounts) ∧
    (should_inject_failure emptyCounts ruleC2 ("GET") ("/orders") 0).2 ("GET:/orders") = 0 :=
  ⟨rfl, rfl⟩

/-- Claim C3 (code_bug evidence): a probability=0 rule never reaches the
probability check of main.py lines 58-60; the invocation raises
AttributeError at line 41, so the rule neither fires nor declines. (The
transcription of line 58 in vetoProb also records that the check is a Python
truthiness test, under which probability=0 would impose no constraint at all
were line 41 repaired.) -/
theorem C3_probability_rule_never_returns :
    should_inject_failure emptyCounts ruleC3 ("GET") ("/orders") 0 =
      (Except.error (PyExc.attributeError ("FailureCondition") ("enabled")), emptyCounts) := rfl

/-- Claim C4 (code_bug evidence): endpoint matching does not return the first
matching endpoint of the declared list; on a configuration declaring exactly
one target with an endpoint matching GET /x, the lookup raises
AttributeError, because main.py line 122 reads self.config.target while
ProxyConfig declares only targets. -/
theorem C4_find_endpoint_crash :
    findMatchingEndpoint cfgC4 ("/x") ("GET") =
      Except.error (PyExc.attributeError ("ProxyConfig") ("target")) := rfl

/-- Claim C5 counterexample: the claim says a pattern containing a star
matches exactly the paths obtained by replacing each star with an arbitrary
character sequence. The pattern /a.c* applied to the path /axc refutes this:
the code matches (the dot of the pattern is passed unescaped into the regex
built at main.py line 134, where it matches any character), yet no
substitution of the star turns /a.c* into /axc, since that would need the
literal pattern character dot at the position of the x. -/
theorem C5_dot_metachar_counterexample :
    pathMatches ("/a.c*") ("/axc") = true ∧
      ¬ SubstMatch (("/a.c*").data) (("/axc").data) := by
  constructor
  · decide
  · intro h
    have h2 := (substMatchB_iff (("/a.c*").data) (("/axc").data)).mpr h
    exact absurd h2 (by decide)

/-- Claim C5 as amended: the pattern /* matches every path; a pattern other
than /* that contains a star and no other regex metacharacter matches a
newline-free path exactly when the path is obtained by replacing each star
with an arbitrary character sequence, anchored at both ends; a pattern with
no star matches only the identical path; and the concrete examples of the
claim hold. Patterns containing other regex metacharacters keep their regex
meaning instead (see the counterexample), because main.py line 134 builds
the regex without escaping them. -/
theorem C5_path_matching_amended :
    (∀ path : String, pathMatches ("/*") path = true) ∧
    (∀ pattern path : String, pattern ≠ ("/*") → noMeta pattern.data = true →
        pattern.data.contains '*' = true → path.data.contains '\n' = false →
        (pathMatches pattern path = true ↔ SubstMatch pattern.data path.data)) ∧
    (∀ pattern path : String, pattern.data.contains '*' = false →
        (pathMatches pattern path = true ↔ pattern = path)) ∧
    pathMatches ("/api/*") ("/api/x") = true ∧
    pathMatches ("/api/*") ("/api/x/y") = true ∧
    pathMatches ("/api/*") ("/apiz") = false := by
  refine ⟨?_, ?_, ?_, by decide, by decide, by decide⟩
  · intro path
    simp [pathMatches]
  · intro pattern path hne hsafe hstar _hnl
    simp only [pathMatches]
    rw [if_neg hne, if_pos hstar]
    rw [reMatch_tokenize pattern.data hsafe path.data]
    exact substMatchB_iff pattern.data path.data
  · intro pattern path hno
    have hne : pattern ≠ ("/*") := by
      intro h
      rw [h] at hno
      exact absurd hno (by decide)
    simp only [pathMatches]
    rw [if_neg hne, if_neg (by rw [hno]; exact Bool.false_ne_true)]
    exact beq_iff_eq

/-- Witness for the amended claim C5: the hypotheses of its second part hold
at the pattern /api/* and the path /api/q, and applying it there yields the
substitution matching of that pair from the computed code-side match. -/
theorem C5_path_matching_amended_witness :
    (("/api/*") : String) ≠ ("/*") ∧ noMeta (("/api/*").data) = true ∧
    (("/api/*").data).contains '*' = true ∧ (("/api/q").data).contains '\n' = false ∧
    SubstMatch (("/api/*").data) (("/api/q").data) :=
  ⟨by decide, by decide, by decide, by decide,
    (C5_path_matching_amended.2.1 ("/api/*") ("/api/q")
      (by decide) (by decide) (by decide) (by decide)).mp (by decide)⟩

/-- Claim C6 (code_bug evidence): on a configuration whose matched endpoint
has a rule that fires on first evaluation under the documented semantics
(count=1), the pipeline does not return the injected FailureResponse; it
raises AttributeError during endpoint resolution (main.py line 122), so the
rule loop of lines 184-194 is never reached and no injected response is ever
produced. -/
theorem C6_injection_unreachable :
    handleRequest cfgC6 emptyCounts ("GET") ("fail") 0 =
      (Except.error (PyExc.attributeError ("ProxyConfig") ("target")), emptyCounts) := rfl

/-- Claim C7 (code_bug evidence): a request matching no configured endpoint
is not answered with the 404 of main.py line 152; the AttributeError raised
at line 122 pre-empts the no-match check, so the 404 branch is unreachable
(the framework surfaces the escaped exception as a 500-class server error,
not a 404-class client error). The counter is indeed left unchanged. -/
theorem C7_not_found_unreachable :
    handleRequest cfgC7 emptyCounts ("GET") ("nope") 0 =
      (Except.error (PyExc.attributeError ("ProxyConfig") ("target")), emptyCounts) ∧
    (handleRequest cfgC7 emptyCounts ("GET") ("nope") 0).2 ("GET:/nope") = 0 :=
  ⟨rfl, rfl⟩

/-- Claim C8: reload_config never lets an exception escape (it is a total
function on server states); when loading raises, the active configuration
and the logger level are unchanged and the failure is logged through the
error level; when loading succeeds, the returned state carries exactly the
new configuration, which is what the next request reads. -/
theorem C8_reload_atomicity :
    (∀ (st : ServerState) (e : PyExc),
        (reload_config st (Except.error e)).config = st.config ∧
        (reload_config st (Except.error e)).logger.level = st.logger.level ∧
        (reload_config st (Except.error e)).logger.log =
          st.logger.log ++ [LogEntry.error (("Failed to reload configuration: ") ++ e.message)]) ∧
    (∀ (st : ServerState) (newConfig : ProxyConfig),
        (reload_config st (Except.ok newConfig)).config = newConfig) := by
  constructor
  · intro st e
    exact ⟨rfl, rfl, rfl⟩
  · intro st newConfig
    simp only [reload_config]
    cases loggingLevelAttr newConfig.logging.level with
    | ok lvl => rfl
    | error e => rfl

/-- Claim C9: every request crashes with AttributeError on the name target:
_find_matching_endpoint reads self.config.target (main.py line 122) while
ProxyConfig declares only the mapping targets (config.py lines 51-54), so
request handling never matches, never injects, never forwards, and never
changes a counter, for every configuration, counter state, method, path and
random draw. -/
theorem C9_target_attribute_crash :
    ∀ (cfg : ProxyConfig) (counts : CounterMap) (method fullPath : String) (rand : Rat),
      handleRequest cfg counts method fullPath rand =
        (Except.error (PyExc.attributeError ("ProxyConfig") ("target")), counts) := by
  intro cfg counts method fullPath rand
  rfl

/-- Claim C10: every invocation of should_inject_failure raises
AttributeError on the name enabled: main.py line 41 reads condition.enabled,
which FailureCondition (config.py lines 8-13) does not declare, so the read
at line 41 pre-empts the method check at line 44 and the counter increment at
line 48; no rule ever fires and the counter map is returned untouched, for
every counter state, rule, method, path and random draw. -/
theorem C10_enabled_attribute_crash :
    ∀ (counts : CounterMap) (rule : FailureRule) (method path : String) (rand : Rat),
      should_inject_failure counts rule method path rand =
        (Except.error (PyExc.attributeError ("FailureCondition") ("enabled")), counts) := by
  intro counts rule method path rand
  rfl

end RestApiProxy
